import Mathlib

/-!
Verification development for the duality-front-end-sdk stream synchronization
engine (src/indexer/subscribers.ts).

The embedding models:
- primitive row values and rows (BaseDataRow);
- a DataSet as the observable content of a JS Map (a function from keys to
  optional values), plus an explicit store of Map objects where object
  identity and in-place mutation matter;
- the accumulation engine (accumulateUpdates, accumulateUpdatesUsingMutation);
- the long-polling transport loop of IndexerStream.subscribeToLongPolling as a
  function of the trace of fetch outcomes the network produces, emitting the
  stream events (onUpdate / backoff delays / onCompleted / onError) in order;
- the option-forwarding performed by the accumulating stream constructors;
- the update handler of the dual-dataset accumulating stream.
-/

namespace DualitySdk

/-- Primitive value of the indexer data model: string or number
(the `value` union type in subscribers.ts). -/
inductive Prim where
  | str (s : String)
  | num (n : Int)
deriving DecidableEq, Repr

/-- A row value: either a single primitive or an ordered list of primitives
(the `value | value[]` side of BaseDataRow). -/
inductive RowValue where
  | prim (p : Prim)
  | arr (l : List Prim)
deriving DecidableEq, Repr

/-- BaseDataRow: a pair of row id and row value. -/
abbrev BaseDataRow := Prim × RowValue

/-- BaseDataSet: the observable content of a JS Map from row id to row value
(lookup by key; insertion order is not observed by any claim). -/
abbrev BaseDataSet := Prim → Option RowValue

/-- Map lookup (Map.prototype.get). -/
def mapGet (m : BaseDataSet) (k : Prim) : Option RowValue := m k

/-- Map.prototype.set: overwrites the binding for a key. -/
def mapSet (m : BaseDataSet) (k : Prim) (v : RowValue) : BaseDataSet :=
  fun x => if x = k then some v else m x

/-- Map.prototype.delete: removes the binding for a key. -/
def mapDelete (m : BaseDataSet) (k : Prim) : BaseDataSet :=
  fun x => if x = k then none else m x

/-- An empty JS Map (new Map()). -/
def emptyDataSet : BaseDataSet := fun _ => none

/-- Copy of a map's content (new Map(currentMap)). -/
def mapCopy (m : BaseDataSet) : BaseDataSet := fun x => m x

/-- AccumulatorOptions: the optional removal sentinel value.  The TS type
restricts it to the primitive 0; strict equality of a primitive sentinel with
a row value holds exactly when the value is that primitive. -/
structure AccumulatorOptions where
  mapEntryRemovalValue : Option Prim := none

/-- The strict-equality test `opts.mapEntryRemovalValue === data` of
accumulateUpdatesUsingMutation. -/
def sentinelMatches (opts : AccumulatorOptions) (v : RowValue) : Bool :=
  match opts.mapEntryRemovalValue with
  | some s => decide (v = RowValue.prim s)
  | none => false

/-- accumulateUpdatesUsingMutation: for each (id, data) pair of dataUpdates in
order, delete id when the removal sentinel strictly equals data, otherwise set
id to data. -/
def accumulateUpdatesUsingMutation (map : BaseDataSet) (dataUpdates : List BaseDataRow)
    (opts : AccumulatorOptions) : BaseDataSet :=
  dataUpdates.foldl
    (fun m row =>
      if sentinelMatches opts row.2 then mapDelete m row.1 else mapSet m row.1 row.2)
    map

/-- accumulateUpdates: the copying merge, it builds a new map with the same
content and applies the mutating merge to the copy. -/
def accumulateUpdates (currentMap : BaseDataSet) (dataUpdates : List BaseDataRow)
    (opts : AccumulatorOptions) : BaseDataSet :=
  accumulateUpdatesUsingMutation (mapCopy currentMap) dataUpdates opts

/-- A store of JS Map objects: object identity is the index into the store.
This makes in-place mutation and aliasing explicit for the frame claims. -/
abbrev Store := List BaseDataSet

/-- Heap-level accumulateUpdatesUsingMutation: overwrites the referenced Map
object in place and returns the same reference. -/
def storeAccumulateUsingMutation (store : Store) (ref : Nat)
    (dataUpdates : List BaseDataRow) (opts : AccumulatorOptions) : Store × Nat :=
  (store.set ref
    (accumulateUpdatesUsingMutation (store.getD ref emptyDataSet) dataUpdates opts),
   ref)

/-- Heap-level accumulateUpdates: allocates a fresh Map with the content of
the referenced one (new Map(currentMap)), then applies the mutating merge to
the fresh object, returning its reference. -/
def storeAccumulateUpdates (store : Store) (ref : Nat)
    (dataUpdates : List BaseDataRow) (opts : AccumulatorOptions) : Store × Nat :=
  let copied := store ++ [mapCopy (store.getD ref emptyDataSet)]
  storeAccumulateUsingMutation copied store.length dataUpdates opts

/-- The effect of one update batch on the value observed at a single key:
fold the remove-or-set decisions of the pairs whose id is that key, in batch
order, over the previously observed value. -/
def applyUpdatesAt (opts : AccumulatorOptions) (k : Prim) (g : Option RowValue)
    (u : List BaseDataRow) : Option RowValue :=
  u.foldl
    (fun acc row =>
      if row.1 = k then (if sentinelMatches opts row.2 then none else some row.2) else acc)
    g

/-- The sentinel-0 options used by liquidity maps. -/
def removalZeroOpts : AccumulatorOptions := { mapEntryRemovalValue := some (Prim.num 0) }

/-- A JS number restricted to the values heights take in the engine: an
integer or NaN (the result of Number(undefined) when a page carries no
block_range). -/
inductive JsNumber where
  | nan
  | int (n : Int)
deriving DecidableEq, Repr

/-- The block_range object of a pull response. -/
structure BlockRange where
  from_height : Int
  to_height : Int
deriving DecidableEq, Repr

/-- The JSON body of a successful pull response (IndexerPage), generic in the
row type because the dual-dataset endpoints ship rows that are pairs of row
arrays. -/
structure IndexerPage (Row : Type) where
  data : List Row := []
  next_key : Option String := none
  block_range : Option BlockRange := none
deriving DecidableEq, Repr

/-- What one awaited fetch produced: an HTTP response with a status and a
body, or a rejection because the shared AbortController aborted the request. -/
inductive FetchOutcome (Row : Type) where
  | response (status : Nat) (body : IndexerPage Row)
  | aborted
deriving DecidableEq, Repr

/-- The externally observable events of one subscription, in order: onUpdate
deliveries, backoff sleeps, the completion callback and the error callback
(reached through the constructor catch-all that wraps rejections). -/
inductive StreamEvent (Row : Type) where
  | update (rows : List Row) (height : JsNumber)
  | delay (ms : Nat)
  | completed
  | errorEvent (msg : String) (cause : String)
deriving DecidableEq, Repr

/-- How a long-polling run ended relative to the supplied trace of fetch
outcomes: still awaiting the network (trace exhausted), resolved after firing
onCompleted, or rejected (the rejection reaches onError). -/
inductive RunStatus where
  | pending
  | resolved
  | rejected
deriving DecidableEq, Repr

/-- The result of running the long-polling loop against a trace of fetch
outcomes. -/
structure RunOutput (Row : Type) where
  events : List (StreamEvent Row)
  status : RunStatus
  knownHeight : Int
  outerPasses : Nat
deriving DecidableEq, Repr

/-- Prefix an event onto a run result. -/
def RunOutput.cons {Row : Type} (e : StreamEvent Row) (r : RunOutput Row) : RunOutput Row :=
  { r with events := e :: r.events }

/-- The configuration subscribeToLongPolling reads from the URL and the
stream instance: whether pagination.before is set to a truthy string, the
parsed block_range.to_height query parameter (none when absent or NaN),
the backoff function and the retry budget. -/
structure PollConfig where
  hasBefore : Bool := false
  toHeightParam : Option Int := none
  backoffFunc : Nat → Nat := fun retries => retries * 1000
  maxRetries : Nat := 5

/-- The height ceiling: 0 when pagination.before is present, otherwise the
to_height parameter unless it is falsy (0, NaN or absent), in which case it
is positive infinity (represented by none). -/
def effectiveToHeight (cfg : PollConfig) : Option Int :=
  if cfg.hasBefore then some 0
  else match cfg.toHeightParam with
    | some z => if z = 0 then none else some z
    | none => none

/-- The outer loop test knownHeight lt toHeight, where the ceiling may be
positive infinity. -/
def belowCeiling (h : Int) (ceiling : Option Int) : Bool :=
  match ceiling with
  | some t => decide (h < t)
  | none => true

/-- nextKey extraction, pagination next_key coerced through a falsy check:
null, absent and the empty string all mean no further page. -/
def jsNextKey (nk : Option String) : Option String :=
  match nk with
  | some s => if s = "" then none else some s
  | none => none

/-- The height passed to onUpdate: Number(range to_height through optional
chaining), NaN when block_range is absent. -/
def pageHeight (range : Option BlockRange) : JsNumber :=
  match range with
  | some r => JsNumber.int r.to_height
  | none => JsNumber.nan

/-- The known-height update: replaced only when the page reports a strictly
greater to_height. -/
def bumpKnownHeight (range : Option BlockRange) (knownHeight : Int) : Int :=
  match range with
  | some r => if knownHeight < r.to_height then r.to_height else knownHeight
  | none => knownHeight

/-- The cause message of the retry-exhaustion rejection. -/
def exhaustionCause (maxRetries : Nat) : String :=
  "Could not fetch data after " ++ toString maxRetries ++ " times."

/-- The nested do-while loops of subscribeToLongPolling, driven by the trace
of fetch outcomes.  State: the current known height, the retry counter and
pending page key of the current outer pass, and the count of outer passes
entered so far.  Each loop body performs exactly one fetch, consuming one
trace element.  A failed response within budget sleeps for the backoff and
then, because continue jumps to the do-while condition, re-enters the body
only when a page key is pending; otherwise the inner loop exits and the outer
condition is evaluated (resetting retries on re-entry).  Rejections surface
as an errorEvent because the constructor catch-all forwards them to onError. -/
def pollGo {Row : Type} (cfg : PollConfig) (knownHeight : Int) (retries : Nat)
    (nextKey : Option String) (passes : Nat) :
    List (FetchOutcome Row) → RunOutput Row
  | [] => ⟨[], RunStatus.pending, knownHeight, passes⟩
  | FetchOutcome.aborted :: _ =>
      ⟨[StreamEvent.errorEvent "Long-Polling Error" "The user aborted a request."],
        RunStatus.rejected, knownHeight, passes⟩
  | FetchOutcome.response status body :: rest =>
      if status = 200 then
        let kh := bumpKnownHeight body.block_range knownHeight
        let nk := jsNextKey body.next_key
        let ev := StreamEvent.update body.data (pageHeight body.block_range)
        if nk.isSome then
          RunOutput.cons ev (pollGo cfg kh retries nk passes rest)
        else
          if belowCeiling kh (effectiveToHeight cfg) then
            RunOutput.cons ev (pollGo cfg kh 0 none (passes + 1) rest)
          else
            ⟨[ev, StreamEvent.completed], RunStatus.resolved, kh, passes⟩
      else
        if retries < cfg.maxRetries then
          let ev := StreamEvent.delay (cfg.backoffFunc retries)
          if nextKey.isSome then
            RunOutput.cons ev (pollGo cfg knownHeight (retries + 1) nextKey passes rest)
          else
            if belowCeiling knownHeight (effectiveToHeight cfg) then
              RunOutput.cons ev (pollGo cfg knownHeight 0 none (passes + 1) rest)
            else
              ⟨[ev, StreamEvent.completed], RunStatus.resolved, knownHeight, passes⟩
        else
          ⟨[StreamEvent.errorEvent "Long-Polling Error" (exhaustionCause cfg.maxRetries)],
            RunStatus.rejected, knownHeight, passes⟩

/-- A full long-polling run: knownHeight starts at 0, no retries and no page
key are pending, and the first outer pass begins. -/
def pollRun {Row : Type} (cfg : PollConfig) (trace : List (FetchOutcome Row)) : RunOutput Row :=
  pollGo cfg 0 0 none 1 trace

/-- The heights passed to onUpdate across a run, in delivery order. -/
def updateHeights {Row : Type} : List (StreamEvent Row) → List JsNumber
  | [] => []
  | StreamEvent.update _ h :: rest => h :: updateHeights rest
  | _ :: rest => updateHeights rest

/-- JS lte on heights: false whenever NaN is involved. -/
def jsLeB : JsNumber → JsNumber → Bool
  | JsNumber.int a, JsNumber.int b => decide (a ≤ b)
  | _, _ => false

/-- Pairwise non-decreasing test on a list of JS heights. -/
def heightsMonotoneB : List JsNumber → Bool
  | [] => true
  | [_] => true
  | a :: b :: rest => jsLeB a b && heightsMonotoneB (b :: rest)

/-- Event classifiers. -/
def isUpdateEvent {Row : Type} : StreamEvent Row → Bool
  | StreamEvent.update _ _ => true
  | _ => false

/-- True exactly on the completion event. -/
def isCompletedEvent {Row : Type} : StreamEvent Row → Bool
  | StreamEvent.completed => true
  | _ => false

/-- True exactly on error events. -/
def isErrorEvent {Row : Type} : StreamEvent Row → Bool
  | StreamEvent.errorEvent _ _ => true
  | _ => false

/-- The single-dataset accumulation pipeline applied to a run's events: each
onUpdate batch is merged (copying merge, default options wiring) into the
held snapshot, exactly as IndexerStreamAccumulateSingleDataSet does. -/
def accumulateFromEvents (opts : AccumulatorOptions)
    (evs : List (StreamEvent BaseDataRow)) : BaseDataSet :=
  evs.foldl
    (fun m e =>
      match e with
      | StreamEvent.update rows _ => accumulateUpdates m rows opts
      | _ => m)
    emptyDataSet

/-- StreamOptions of IndexerStream: presence of a shared AbortController,
the disableSSE flag and the optional custom backoff function. -/
structure StreamOptions where
  hasAbortController : Bool := false
  disableSSE : Option Bool := none
  backoffFunc : Option (Nat → Nat) := none

/-- The default backoff of IndexerStream, linearly increasing by 1000 ms per
retry. -/
def defaultBackoff : Nat → Nat := fun retries => retries * 1000

/-- The backoff function the IndexerStream constructor installs: the supplied
one when the options carry a (truthy) backoffFunc, else the default. -/
def IndexerStream.effectiveBackoff (opts : Option StreamOptions) : Nat → Nat :=
  match opts with
  | some o =>
    match o.backoffFunc with
    | some f => f
    | none => defaultBackoff
  | none => defaultBackoff

/-- The intersection type AccumulatorOptions and StreamOptions taken by the
accumulating stream constructors. -/
structure ComboOptions where
  mapEntryRemovalValue : Option Prim := none
  hasAbortController : Bool := false
  disableSSE : Option Bool := none
  backoffFunc : Option (Nat → Nat) := none

/-- The options object the IndexerStreamAccumulateSingleDataSet constructor
builds for its inner IndexerStream: an object literal with exactly the
abortController and disableSSE fields of the caller's options. -/
def singleDataSetForwardedOptions (opts : Option ComboOptions) : StreamOptions :=
  { hasAbortController := (opts.map (fun o => o.hasAbortController)).getD false
    disableSSE := opts.bind (fun o => o.disableSSE)
    backoffFunc := none }

/-- The options object the IndexerStreamAccumulateDualDataSet constructor
builds for its inner IndexerStream: likewise only abortController and
disableSSE. -/
def dualDataSetForwardedOptions (opts : Option ComboOptions) : StreamOptions :=
  { hasAbortController := (opts.map (fun o => o.hasAbortController)).getD false
    disableSSE := opts.bind (fun o => o.disableSSE)
    backoffFunc := none }

/-- Instance state of IndexerStreamAccumulateDualDataSet: the two held
snapshots and the last seen height. -/
structure DualState where
  dataSets : BaseDataSet × BaseDataSet
  dataHeight : JsNumber

/-- The freshly constructed dual accumulator: two empty Maps, height 0. -/
def initialDualState : DualState :=
  ⟨(emptyDataSet, emptyDataSet), JsNumber.int 0⟩

/-- Events the dual accumulator republishes to its consumer. -/
inductive DualEvent where
  | onUpdate (updates : List BaseDataRow × List BaseDataRow) (height : JsNumber)
  | onAccumulated (dataSets : BaseDataSet × BaseDataSet) (height : JsNumber)

/-- The onUpdate handler installed by the IndexerStreamAccumulateDualDataSet
constructor: forward the raw batch, store the height, merge side 0 and side 1
each into its own snapshot with the copying merge, and republish both
snapshots with the shared height through onAccumulated. -/
def dualOnUpdate (st : DualState) (dataUpdates : List BaseDataRow × List BaseDataRow)
    (dataHeight : JsNumber) (opts : AccumulatorOptions) : DualState × List DualEvent :=
  let dataSets :=
    (accumulateUpdates st.dataSets.1 dataUpdates.1 opts,
     accumulateUpdates st.dataSets.2 dataUpdates.2 opts)
  (⟨dataSets, dataHeight⟩,
   [DualEvent.onUpdate dataUpdates dataHeight,
    DualEvent.onAccumulated dataSets dataHeight])

/-- Scenario: a pull request carrying pagination.before (the one-shot fetch
path), default backoff and retry budget. -/
def beforeCfg : PollConfig :=
  { hasBefore := true, toHeightParam := none }

/-- Scenario: an unbounded pull subscription (no before cap, no to_height). -/
def unboundedCfg : PollConfig :=
  { hasBefore := false, toHeightParam := none }

/-- Scenario row used in counterexample traces. -/
def rowA : BaseDataRow := (Prim.num 1, RowValue.prim (Prim.num 11))

/-- A second scenario row. -/
def rowB : BaseDataRow := (Prim.num 2, RowValue.prim (Prim.num 22))

/-- First page of the decreasing-height scenario: reports to_height 10 and a
pending page key. -/
def pageHeight10 : IndexerPage BaseDataRow :=
  { data := [rowA]
    next_key := some "a"
    block_range := some { from_height := 1, to_height := 10 } }

/-- Second page of the decreasing-height scenario: reports to_height 5 and no
further page key. -/
def pageHeight5 : IndexerPage BaseDataRow :=
  { data := [rowB]
    next_key := none
    block_range := some { from_height := 1, to_height := 5 } }

/-- Trace refuting delivered-height monotonicity: a first page reporting
to_height 10 with a pending page key, then a page reporting to_height 5. -/
def decreasingHeightTrace : List (FetchOutcome BaseDataRow) :=
  [FetchOutcome.response 200 pageHeight10, FetchOutcome.response 200 pageHeight5]

/-- An empty 500 response body. -/
def emptyPage : IndexerPage BaseDataRow := {}

/-- Six consecutive non-success responses. -/
def sixFailuresTrace : List (FetchOutcome BaseDataRow) :=
  List.replicate 6 (FetchOutcome.response 500 emptyPage)

/-- A custom backoff returning a constant 7 ms. -/
def customBackoffSeven : Nat → Nat := fun _ => 7

/-- Synchronizer options carrying the custom backoff. -/
def comboWithSevenBackoff : ComboOptions := { backoffFunc := some customBackoffSeven }

/-- The poll configuration of the stream created by the single-dataset
synchronizer when given the custom backoff: the backoff actually installed is
derived from the forwarded options. -/
def forwardedSevenCfg : PollConfig :=
  { hasBefore := true, toHeightParam := none,
    backoffFunc :=
      IndexerStream.effectiveBackoff (some (singleDataSetForwardedOptions
        (some comboWithSevenBackoff))) }

/-- The dual-dataset update batch of the pairing scenario. -/
def dualPairBatch : List BaseDataRow × List BaseDataRow :=
  ([(Prim.num 1, RowValue.prim (Prim.str "x"))],
   [(Prim.num 1, RowValue.prim (Prim.str "y"))])

/-- A concrete successful page body without a block_range field. -/
def noRangePage : IndexerPage BaseDataRow :=
  { data := [rowA], next_key := none, block_range := none }

/-- A one-map store for the frame-property witness. -/
def singletonStore : Store := [emptyDataSet]

/-- First page of the pagination-exhaustion scenario: one row, a pending page
key, no block_range. -/
def exhaustionPage1 (r : BaseDataRow) : IndexerPage BaseDataRow :=
  { data := [r], next_key := some "a", block_range := none }

/-- Second page of the pagination-exhaustion scenario: one row, no further
page key. -/
def exhaustionPage2 (r : BaseDataRow) : IndexerPage BaseDataRow :=
  { data := [r], next_key := none, block_range := none }

/-- The two-page trace of the pagination-exhaustion scenario. -/
def exhaustionTrace (r1 r2 : BaseDataRow) : List (FetchOutcome BaseDataRow) :=
  [FetchOutcome.response 200 (exhaustionPage1 r1),
   FetchOutcome.response 200 (exhaustionPage2 r2)]

/-- Pointwise characterization of the mutating merge: the value observed at a
key after a batch is the fold of the batch's remove-or-set decisions for that
key over the previously observed value. -/
theorem mapGet_accumulateUpdatesUsingMutation (u : List BaseDataRow) :
    ∀ (m : BaseDataSet) (opts : AccumulatorOptions) (k : Prim),
      mapGet (accumulateUpdatesUsingMutation m u opts) k =
        applyUpdatesAt opts k (mapGet m k) u := by
  induction u with
  | nil => intro m opts k; rfl
  | cons row u ih =>
    intro m opts k
    have hstep :
        mapGet (if sentinelMatches opts row.2 then mapDelete m row.1
          else mapSet m row.1 row.2) k =
          (if row.1 = k then (if sentinelMatches opts row.2 then none else some row.2)
            else mapGet m k) := by
      by_cases hk : row.1 = k
      · subst hk
        by_cases hs : sentinelMatches opts row.2 <;>
          simp [hs, mapGet, mapDelete, mapSet]
      · have hk2 : ¬ k = row.1 := fun h => hk h.symm
        by_cases hs : sentinelMatches opts row.2 <;>
          simp [hs, hk, hk2, mapGet, mapDelete, mapSet]
    calc
      mapGet (accumulateUpdatesUsingMutation m (row :: u) opts) k =
          mapGet (accumulateUpdatesUsingMutation
            (if sentinelMatches opts row.2 then mapDelete m row.1
              else mapSet m row.1 row.2) u opts) k := by
        simp [accumulateUpdatesUsingMutation]
      _ = applyUpdatesAt opts k
            (mapGet (if sentinelMatches opts row.2 then mapDelete m row.1
              else mapSet m row.1 row.2) k) u := ih _ _ _
      _ = applyUpdatesAt opts k (mapGet m k) (row :: u) := by
        rw [hstep]; simp [applyUpdatesAt]

/-- Replaying a batch's effect at one key on top of its own result changes
nothing. -/
theorem applyUpdatesAt_idem (opts : AccumulatorOptions) (k : Prim)
    (u : List BaseDataRow) :
    ∀ g : Option RowValue,
      applyUpdatesAt opts k (applyUpdatesAt opts k g u) u =
        applyUpdatesAt opts k g u := by
  induction u using List.reverseRecOn with
  | nil => intro g; rfl
  | append_singleton u row ih =>
    intro g
    by_cases hk : row.1 = k
    · simp [applyUpdatesAt, List.foldl_append, hk]
    · simp only [applyUpdatesAt, List.foldl_append, List.foldl_cons, List.foldl_nil,
        if_neg hk]
      exact ih g

/-- The known height never decreases in one step of the height update. -/
theorem le_bumpKnownHeight (range : Option BlockRange) (kh : Int) :
    kh ≤ bumpKnownHeight range kh := by
  cases range with
  | none => exact le_refl kh
  | some r =>
    simp only [bumpKnownHeight]
    split <;> omega

/-- Prefixing an event does not change the final known height of a run. -/
theorem RunOutput.cons_knownHeight {Row : Type} (e : StreamEvent Row) (r : RunOutput Row) :
    (RunOutput.cons e r).knownHeight = r.knownHeight := rfl

/-- C1: the merge processes each (id, value) pair of the batch in order,
removing the id when the sentinel is defined and equals the value and setting
id to value otherwise; consequently the value observed at any key is the fold
of the batch's decisions for that key, and with sentinel 0 merging a
single (k, 0) update removes k from a snapshot containing k and leaves a
snapshot without k unchanged. -/
theorem claim_C1_merge_semantics :
    (∀ (opts : AccumulatorOptions) (m : BaseDataSet) (id : Prim) (v : RowValue)
        (u : List BaseDataRow),
      accumulateUpdatesUsingMutation m ((id, v) :: u) opts =
        accumulateUpdatesUsingMutation
          (if sentinelMatches opts v then mapDelete m id else mapSet m id v) u opts)
    ∧ (∀ (opts : AccumulatorOptions) (m : BaseDataSet) (u : List BaseDataRow) (k : Prim),
      mapGet (accumulateUpdatesUsingMutation m u opts) k =
        applyUpdatesAt opts k (mapGet m k) u)
    ∧ (∀ (m : BaseDataSet) (k : Prim),
      mapGet (accumulateUpdatesUsingMutation m [(k, RowValue.prim (Prim.num 0))]
        removalZeroOpts) k = none)
    ∧ (∀ (m : BaseDataSet) (k : Prim), mapGet m k = none →
      accumulateUpdatesUsingMutation m [(k, RowValue.prim (Prim.num 0))]
        removalZeroOpts = m) := by
  refine ⟨?_, ?_, ?_, ?_⟩
  · intro opts m id v u
    rfl
  · intro opts m u k
    exact mapGet_accumulateUpdatesUsingMutation u m opts k
  · intro m k
    simp [accumulateUpdatesUsingMutation, sentinelMatches, removalZeroOpts,
      mapDelete, mapGet]
  · intro m k hm
    have hsent : sentinelMatches removalZeroOpts (RowValue.prim (Prim.num 0)) = true := by
      simp [sentinelMatches, removalZeroOpts]
    funext x
    show mapDelete m k x = m x
    by_cases hx : x = k
    · subst hx
      simp [mapDelete, mapGet] at hm ⊢
      exact hm.symm
    · simp [mapDelete, hx]

/-- Witness for C1: discharging the no-op branch at the empty snapshot and
key 1. -/
theorem claim_C1_merge_semantics_witness :
    mapGet emptyDataSet (Prim.num 1) = none ∧
      accumulateUpdatesUsingMutation emptyDataSet
        [(Prim.num 1, RowValue.prim (Prim.num 0))] removalZeroOpts = emptyDataSet :=
  ⟨rfl, claim_C1_merge_semantics.2.2.2 emptyDataSet (Prim.num 1) rfl⟩

/-- C8: applying the same update batch twice yields the same snapshot as
applying it once, for the mutating merge and for the copying merge. -/
theorem claim_C8_merge_idempotent (m : BaseDataSet) (u : List BaseDataRow)
    (opts : AccumulatorOptions) :
    accumulateUpdatesUsingMutation (accumulateUpdatesUsingMutation m u opts) u opts =
        accumulateUpdatesUsingMutation m u opts
    ∧ accumulateUpdates (accumulateUpdates m u opts) u opts =
        accumulateUpdates m u opts := by
  have key : accumulateUpdatesUsingMutation (accumulateUpdatesUsingMutation m u opts) u opts =
      accumulateUpdatesUsingMutation m u opts := by
    funext k
    show mapGet (accumulateUpdatesUsingMutation
        (accumulateUpdatesUsingMutation m u opts) u opts) k =
      mapGet (accumulateUpdatesUsingMutation m u opts) k
    rw [mapGet_accumulateUpdatesUsingMutation, mapGet_accumulateUpdatesUsingMutation,
      applyUpdatesAt_idem]
  exact ⟨key, key⟩

/-- C7: the copying merge allocates a fresh snapshot object holding the merge
result and leaves every previously existing snapshot object, in particular
the input one, unchanged in the store. -/
theorem claim_C7_copying_merge_frame (store : Store) (ref : Nat)
    (u : List BaseDataRow) (opts : AccumulatorOptions) (href : ref < store.length) :
    ((storeAccumulateUpdates store ref u opts).1[ref]? = store[ref]?)
    ∧ (∀ j, j < store.length →
        (storeAccumulateUpdates store ref u opts).1[j]? = store[j]?)
    ∧ (storeAccumulateUpdates store ref u opts).2 = store.length
    ∧ (storeAccumulateUpdates store ref u opts).2 ≠ ref
    ∧ (storeAccumulateUpdates store ref u opts).1[(storeAccumulateUpdates store ref u opts).2]? =
        some (accumulateUpdates (store.getD ref emptyDataSet) u opts) := by
  have hframe : ∀ j, j < store.length →
      (storeAccumulateUpdates store ref u opts).1[j]? = store[j]? := by
    intro j hj
    simp only [storeAccumulateUpdates, storeAccumulateUsingMutation]
    rw [List.getElem?_set_ne (by omega)]
    exact List.getElem?_append_left hj
  have h2 : (storeAccumulateUpdates store ref u opts).2 = store.length := rfl
  refine ⟨hframe ref href, hframe, rfl, by rw [h2]; omega, ?_⟩
  simp only [storeAccumulateUpdates, storeAccumulateUsingMutation]
  have hc : (store ++ [mapCopy (store.getD ref emptyDataSet)]).getD store.length emptyDataSet =
      mapCopy (store.getD ref emptyDataSet) := by
    simp [List.getD, List.getElem?_concat_length]
  rw [hc]
  have hlen : store.length < (store ++ [mapCopy (store.getD ref emptyDataSet)]).length := by
    simp
  rw [List.getElem?_set_self (by omega)]
  rfl

/-- Witness for C7: the frame property at a one-map store, reference 0 and an
empty batch. -/
theorem claim_C7_copying_merge_frame_witness :
    (0 < singletonStore.length) ∧
    (((storeAccumulateUpdates singletonStore 0 [] {}).1[0]? = singletonStore[0]?)
      ∧ (∀ j, j < singletonStore.length →
          (storeAccumulateUpdates singletonStore 0 [] {}).1[j]? = singletonStore[j]?)
      ∧ (storeAccumulateUpdates singletonStore 0 [] {}).2 = singletonStore.length
      ∧ (storeAccumulateUpdates singletonStore 0 [] {}).2 ≠ 0
      ∧ (storeAccumulateUpdates singletonStore 0 [] {}).1[(storeAccumulateUpdates
          singletonStore 0 [] {}).2]? =
          some (accumulateUpdates (singletonStore.getD 0 emptyDataSet) [] {})) :=
  ⟨by decide, claim_C7_copying_merge_frame singletonStore 0 [] {} (by decide)⟩

/-- C2 (code behavior at the failing input): with pagination.before set and
an endpoint answering non-success six times in a row, the run fires the
completion callback after a single failed attempt and surfaces no error: the
continue statement jumps to the do-while condition, which is false because no
page key is pending, so the retry budget is never exhausted. -/
theorem claim_C2_retry_budget_code_behavior :
    (pollRun beforeCfg sixFailuresTrace).events =
        [StreamEvent.delay 0, StreamEvent.completed]
    ∧ (pollRun beforeCfg sixFailuresTrace).status = RunStatus.resolved
    ∧ (pollRun beforeCfg sixFailuresTrace).events.countP isErrorEvent = 0
    ∧ (pollRun beforeCfg sixFailuresTrace).events.countP isCompletedEvent = 1 :=
  ⟨rfl, rfl, rfl, rfl⟩

/-- C4 counterexample: a pull subscription cancelled before any event fires
(the first pending fetch aborts) still invokes the error callback, because
the abort rejection reaches the constructor catch-all. -/
theorem claim_C4_counterexample :
    ((pollRun unboundedCfg [(FetchOutcome.aborted : FetchOutcome BaseDataRow)]).events.any
      isErrorEvent) = true := rfl

/-- C4 amended: cancelling before any event fires suppresses every later
onUpdate and onCompleted, but the pull controller delivers one final onError
wrapping the abort. -/
theorem claim_C4_amended_cancellation {Row : Type} (cfg : PollConfig)
    (rest : List (FetchOutcome Row)) :
    (pollRun cfg (FetchOutcome.aborted :: rest)).events =
        [StreamEvent.errorEvent "Long-Polling Error" "The user aborted a request."]
    ∧ (pollRun cfg (FetchOutcome.aborted :: rest)).events.countP
        (fun e => isUpdateEvent e || isCompletedEvent e) = 0 :=
  ⟨rfl, rfl⟩

/-- C5 (code behavior at the failing input): the accumulating stream
constructors forward only abortController and disableSSE, so the stream they
build always uses the default linear backoff; with a custom backoff of
constantly 7 ms configured, the first retry still sleeps 0 ms (the default
at retry count 0), not 7 ms. -/
theorem claim_C5_backoff_dropped :
    (∀ co : ComboOptions,
      IndexerStream.effectiveBackoff (some (singleDataSetForwardedOptions (some co))) =
        defaultBackoff)
    ∧ (∀ co : ComboOptions,
      IndexerStream.effectiveBackoff (some (dualDataSetForwardedOptions (some co))) =
        defaultBackoff)
    ∧ (pollRun forwardedSevenCfg
        [FetchOutcome.response 500 emptyPage]).events.head? =
        some (StreamEvent.delay 0)
    ∧ customBackoffSeven 0 = 7 :=
  ⟨fun _ => rfl, fun _ => rfl, rfl, rfl⟩

/-- C3 counterexample: the heights delivered to onUpdate are the raw
server-reported to_height values; a page reporting height 10 followed by one
reporting height 5 yields a decreasing delivered sequence. -/
theorem claim_C3_counterexample :
    heightsMonotoneB (updateHeights
      (pollRun unboundedCfg decreasingHeightTrace).events) = false := rfl

/-- C3 amended: the controller's tracked known height (the lower bound used
for subsequent requests) is non-decreasing across every run segment; the
delivered heights themselves are the raw page heights and need not be. -/
theorem claim_C3_amended_knownHeight_monotone {Row : Type} (cfg : PollConfig) :
    ∀ (trace : List (FetchOutcome Row)) (kh : Int) (r : Nat) (nk : Option String)
      (p : Nat), kh ≤ (pollGo cfg kh r nk p trace).knownHeight := by
  intro trace
  induction trace with
  | nil => intro kh r nk p; exact le_refl kh
  | cons o rest ih =>
    intro kh r nk p
    cases o with
    | aborted => exact le_refl kh
    | response status body =>
      simp only [pollGo]
      split_ifs with h200 hnk hbc hr hnk2 hbc2
      · exact le_trans (le_bumpKnownHeight _ _) (ih _ _ _ _)
      · exact le_trans (le_bumpKnownHeight _ _) (ih _ _ _ _)
      · exact le_bumpKnownHeight _ _
      · exact ih _ _ _ _
      · exact ih _ _ _ _
      · exact le_refl kh
      · exact le_refl kh

/-- C6: with the snapshot-time cap present, the two-page sequence delivers
both rows, runs a single outer pass, fires exactly one completion event, and
the accumulated snapshot contains both row ids. -/
theorem claim_C6_pagination_exhaustion (r1 r2 : BaseDataRow) :
    (pollRun beforeCfg (exhaustionTrace r1 r2)).events =
        [StreamEvent.update [r1] JsNumber.nan, StreamEvent.update [r2] JsNumber.nan,
          StreamEvent.completed]
    ∧ (pollRun beforeCfg (exhaustionTrace r1 r2)).outerPasses = 1
    ∧ (pollRun beforeCfg (exhaustionTrace r1 r2)).status = RunStatus.resolved
    ∧ (pollRun beforeCfg (exhaustionTrace r1 r2)).events.countP isCompletedEvent = 1
    ∧ (mapGet (accumulateFromEvents {} (pollRun beforeCfg (exhaustionTrace r1 r2)).events)
        r1.1).isSome = true
    ∧ (mapGet (accumulateFromEvents {} (pollRun beforeCfg (exhaustionTrace r1 r2)).events)
        r2.1).isSome = true := by
  obtain ⟨k1, v1⟩ := r1
  obtain ⟨k2, v2⟩ := r2
  have hsnap : accumulateFromEvents {}
      (pollRun beforeCfg (exhaustionTrace (k1, v1) (k2, v2))).events =
      mapSet (mapSet emptyDataSet k1 v1) k2 v2 := rfl
  refine ⟨rfl, rfl, rfl, rfl, ?_, ?_⟩
  · rw [hsnap]
    by_cases h : k1 = k2 <;> simp [mapGet, mapSet, h]
  · rw [hsnap]
    simp [mapGet, mapSet]

/-- C10: a successful pull response without a block_range field still
delivers its rows through onUpdate, with height NaN, and leaves the known
height used for subsequent requests unchanged. -/
theorem claim_C10_missing_block_range (cfg : PollConfig) (kh : Int) (r : Nat)
    (nk : Option String) (p : Nat) (body : IndexerPage BaseDataRow)
    (hbr : body.block_range = none) :
    ((pollGo cfg kh r nk p [FetchOutcome.response 200 body]).events.head? =
      some (StreamEvent.update body.data JsNumber.nan))
    ∧ (pollGo cfg kh r nk p [FetchOutcome.response 200 body]).knownHeight = kh := by
  simp only [pollGo, hbr, bumpKnownHeight, pageHeight]
  split_ifs <;> simp [RunOutput.cons, pollGo]

/-- Witness for C10: the concrete page with a row and no block_range. -/
theorem claim_C10_missing_block_range_witness :
    (noRangePage.block_range = none)
    ∧ (((pollGo unboundedCfg 0 0 none 1
          [FetchOutcome.response 200 noRangePage]).events.head? =
        some (StreamEvent.update noRangePage.data JsNumber.nan))
      ∧ (pollGo unboundedCfg 0 0 none 1
          [FetchOutcome.response 200 noRangePage]).knownHeight = 0) :=
  ⟨rfl, claim_C10_missing_block_range unboundedCfg 0 0 none 1 noRangePage rfl⟩

/-- C9: the dual accumulator merges each side of a pair batch only into its
own snapshot, stores the shared height, and republishes both snapshots as an
ordered pair with that height; at the concrete pairing scenario the two
snapshots map id 1 to x and to y respectively, both at height 10. -/
theorem claim_C9_dual_pairing :
    (∀ (st : DualState) (du : List BaseDataRow × List BaseDataRow) (h : JsNumber)
        (opts : AccumulatorOptions),
      (dualOnUpdate st du h opts).1.dataSets.1 = accumulateUpdates st.dataSets.1 du.1 opts
      ∧ (dualOnUpdate st du h opts).1.dataSets.2 = accumulateUpdates st.dataSets.2 du.2 opts
      ∧ (dualOnUpdate st du h opts).1.dataHeight = h
      ∧ (dualOnUpdate st du h opts).2 =
          [DualEvent.onUpdate du h,
           DualEvent.onAccumulated (dualOnUpdate st du h opts).1.dataSets h])
    ∧ (mapGet (dualOnUpdate initialDualState dualPairBatch (JsNumber.int 10) {}).1.dataSets.1
        (Prim.num 1) = some (RowValue.prim (Prim.str "x")))
    ∧ (mapGet (dualOnUpdate initialDualState dualPairBatch (JsNumber.int 10) {}).1.dataSets.2
        (Prim.num 1) = some (RowValue.prim (Prim.str "y")))
    ∧ ((dualOnUpdate initialDualState dualPairBatch (JsNumber.int 10) {}).1.dataHeight =
        JsNumber.int 10) :=
  ⟨fun _ _ _ _ => ⟨rfl, rfl, rfl, rfl⟩, rfl, rfl, rfl⟩

end DualitySdk
